import Mathlib

/-!
Verification of the window-visibility shell in
`src/src-tauri/src/main.rs` (a Tauri desktop-assistant controller).

The program manages one main window.  Its handle may become invalid, which
the embedding models as `World.window = none`; every Tauri window call
(`is_visible`, `show`, `hide`, `set_focus`, `emit`) and `get_window("main")`
fails exactly then, and the Rust sources call `.unwrap()` on each of those
results, which panics on failure.  Handlers therefore return an `Outcome`:
normal return with the new world and the list of window actions issued,
`exit code` for `std::process::exit`, or `panicked` for a failed unwrap.
-/

/-- Observable state of the single main window: whether it is visible and
whether it holds input focus. -/
structure WindowState where
  visible : Bool
  focused : Bool
  deriving DecidableEq, Repr

/-- The world a handler acts on: the main window's state, or `none` when the
window handle has become unavailable (queries and actions on it fail). -/
structure World where
  window : Option WindowState
  deriving DecidableEq, Repr

/-- An action issued to the windowing layer or the UI layer during one
handler invocation, in order. -/
inductive Act where
  | show
  | hide
  | setFocus
  | preventClose
  | emit (event : String)
  deriving DecidableEq, Repr

/-- Result of one handler invocation: normal completion with the resulting
world and the trace of actions issued, process exit with a code
(`std::process::exit`), or a panic from a failed `.unwrap()`. -/
inductive Outcome where
  | ok (w : World) (trace : List Act)
  | exit (code : Nat)
  | panicked
  deriving DecidableEq, Repr

/-- Embeds the Rust command `toggle_window` (main.rs lines 70–78):
`if window.is_visible().unwrap() { window.hide().unwrap() } else
{ window.show().unwrap(); window.set_focus().unwrap() }`.  When the window
handle is unavailable the `is_visible().unwrap()` panics. -/
def toggle_window (w : World) : Outcome :=
  match w.window with
  | none => Outcome.panicked
  | some st =>
    if st.visible then
      Outcome.ok { window := some { st with visible := false } } [Act.hide]
    else
      Outcome.ok { window := some { st with visible := true, focused := true } }
        [Act.show, Act.setFocus]

/-- Embeds the Rust command `show_window` (main.rs lines 81–85):
`window.show().unwrap(); window.set_focus().unwrap()`. -/
def show_window (w : World) : Outcome :=
  match w.window with
  | none => Outcome.panicked
  | some st =>
    Outcome.ok { window := some { st with visible := true, focused := true } }
      [Act.show, Act.setFocus]

/-- Embeds the Rust command `hide_window` (main.rs lines 88–91):
`window.hide().unwrap()`. -/
def hide_window (w : World) : Outcome :=
  match w.window with
  | none => Outcome.panicked
  | some st =>
    Outcome.ok { window := some { st with visible := false } } [Act.hide]

/-- The tray events the Rust handler distinguishes: `LeftClick`,
`MenuItemClick { id }`, and everything else (`_ => {}`). -/
inductive SystemTrayEvent where
  | leftClick
  | menuItemClick (id : String)
  | otherTrayEvent
  deriving DecidableEq, Repr

/-- Embeds `handle_system_tray_event` (main.rs lines 28–67).  `LeftClick`
toggles via `get_window("main").unwrap()`; `MenuItemClick` dispatches on the
item id: `quit` → `std::process::exit(0)`, `show` → show+focus, `hide` →
hide, `settings` → show+focus+`emit("show-settings")`, any other id → no-op;
other tray events are no-ops. -/
def handle_system_tray_event (w : World) (event : SystemTrayEvent) : Outcome :=
  match event with
  | SystemTrayEvent.leftClick =>
    match w.window with
    | none => Outcome.panicked
    | some st =>
      if st.visible then
        Outcome.ok { window := some { st with visible := false } } [Act.hide]
      else
        Outcome.ok { window := some { st with visible := true, focused := true } }
          [Act.show, Act.setFocus]
  | SystemTrayEvent.menuItemClick id =>
    if id = "quit" then
      Outcome.exit 0
    else if id = "show" then
      match w.window with
      | none => Outcome.panicked
      | some st =>
        Outcome.ok { window := some { st with visible := true, focused := true } }
          [Act.show, Act.setFocus]
    else if id = "hide" then
      match w.window with
      | none => Outcome.panicked
      | some st =>
        Outcome.ok { window := some { st with visible := false } } [Act.hide]
    else if id = "settings" then
      match w.window with
      | none => Outcome.panicked
      | some st =>
        Outcome.ok { window := some { st with visible := true, focused := true } }
          [Act.show, Act.setFocus, Act.emit "show-settings"]
    else
      Outcome.ok w []
  | SystemTrayEvent.otherTrayEvent => Outcome.ok w []

/-- Embeds the `CmdOrCtrl+'` global-shortcut callback registered in `main`
(main.rs lines 144–159): `get_window("main").unwrap()` then the same
read-visibility / hide-or-show-and-focus body as `toggle_window`. -/
def hotkey_toggle_quote (w : World) : Outcome :=
  match w.window with
  | none => Outcome.panicked
  | some st =>
    if st.visible then
      Outcome.ok { window := some { st with visible := false } } [Act.hide]
    else
      Outcome.ok { window := some { st with visible := true, focused := true } }
        [Act.show, Act.setFocus]

/-- Embeds the `CmdOrCtrl+Shift+A` global-shortcut callback registered in
`main` (main.rs lines 162–177), textually identical to the quote shortcut's
body. -/
def hotkey_toggle_shift_a (w : World) : Outcome :=
  match w.window with
  | none => Outcome.panicked
  | some st =>
    if st.visible then
      Outcome.ok { window := some { st with visible := false } } [Act.hide]
    else
      Outcome.ok { window := some { st with visible := true, focused := true } }
        [Act.show, Act.setFocus]

/-- The window events the Rust handler distinguishes (main.rs lines
183–196): `CloseRequested`, `Focused(false)`, and everything else. -/
inductive WindowEventK where
  | closeRequested
  | focusLost
  | otherWindowEvent
  deriving DecidableEq, Repr

/-- Embeds the window-event handler installed in `main` (main.rs lines
183–196): on `CloseRequested` it calls `api.prevent_close()` and then
`window.hide().unwrap()`; the `Focused(false)` arm is an intentional no-op
(the hide-on-focus-loss line is commented out); all other events fall to
`_ => {}`. -/
def on_window_event (w : World) (e : WindowEventK) : Outcome :=
  match e with
  | WindowEventK.closeRequested =>
    match w.window with
    | none => Outcome.panicked
    | some st =>
      Outcome.ok { window := some { st with visible := false } }
        [Act.preventClose, Act.hide]
  | WindowEventK.focusLost => Outcome.ok w []
  | WindowEventK.otherWindowEvent => Outcome.ok w []

/-- Tauri runtime rule for a close request: the window is destroyed after
the handler unless the handler called `prevent_close` during it. -/
def destroysWindow (o : Outcome) : Bool :=
  match o with
  | Outcome.ok _ tr => !(tr.contains Act.preventClose)
  | _ => false

/-- Whether the handler invocation terminated the process via
`std::process::exit`. -/
def processExits (o : Outcome) : Bool :=
  match o with
  | Outcome.exit _ => true
  | _ => false

/-- Runs `toggle_window` `n` times in sequence, threading the world and
concatenating the action traces; a panic or exit aborts the run. -/
def runToggles : Nat → World → Outcome
  | 0, w => Outcome.ok w []
  | n + 1, w =>
    match toggle_window w with
    | Outcome.ok w' tr =>
      match runToggles n w' with
      | Outcome.ok w'' tr' => Outcome.ok w'' (tr ++ tr')
      | o => o
    | o => o

/-- World reached by a normally-completing invocation, `none` on panic or
exit. -/
def stateAfter (o : Outcome) : Option World :=
  match o with
  | Outcome.ok w _ => some w
  | _ => none

/-- World reached by two consecutive invocations of a handler, `none` if
either invocation fails to complete normally. -/
def twiceState (f : World → Outcome) (w : World) : Option World :=
  match stateAfter (f w) with
  | some w' => stateAfter (f w')
  | none => none

/-- Result of the OS metadata query underlying `Path::exists`:
the path resolves to an existing file, does not exist, is syntactically
invalid, or the query hits some other I/O error. -/
inductive MetaResult where
  | found
  | notFound
  | invalidPath
  | ioError
  deriving DecidableEq, Repr

/-- The filesystem as an oracle answering metadata queries on path
strings. -/
structure Fs where
  query : String → MetaResult

/-- Embeds the Rust command `file_exists` (main.rs lines 105–108):
`std::path::Path::new(&path).exists()`, where `Path::exists` is
`fs::metadata(self).is_ok()` — `true` exactly when the metadata query
succeeds, `false` on any error (nonexistent, invalid, or I/O). -/
def file_exists (fs : Fs) (path : String) : Bool :=
  match fs.query path with
  | MetaResult.found => true
  | _ => false

/-- Parity of `n + 1` is the negation of the parity of `n`. -/
lemma parity_succ (n : Nat) :
    decide ((n + 1) % 2 = 1) = !(decide (n % 2 = 1)) := by
  rcases Nat.mod_two_eq_zero_or_one n with h | h <;>
    simp [Nat.add_mod, h]

/-- Fixture filesystem for exercising `file_exists` at concrete paths. -/
def sampleFs : Fs :=
  { query := fun p =>
      if p = "/present" then MetaResult.found
      else if p = "" then MetaResult.invalidPath
      else MetaResult.notFound }

/-- C1: for every initial visibility state and every finite sequence of
`toggle()` invocations with no external visibility change in between, the
run completes normally and the final visibility equals the initial
visibility XORed with the parity of the number of invocations. -/
theorem toggle_parity (st : WindowState) (n : Nat) :
    ∃ st' tr,
      runToggles n { window := some st } = Outcome.ok { window := some st' } tr ∧
      st'.visible = xor st.visible (decide (n % 2 = 1)) := by
  induction n generalizing st with
  | zero => exact ⟨st, [], rfl, by simp⟩
  | succ n ih =>
    by_cases hv : st.visible = true
    · obtain ⟨st', tr, heq, hvis⟩ := ih { st with visible := false }
      refine ⟨st', [Act.hide] ++ tr, ?_, ?_⟩
      · simp [runToggles, toggle_window, hv, heq]
      · rw [hvis, parity_succ]
        simp [hv]
    · rw [Bool.not_eq_true] at hv
      obtain ⟨st', tr, heq, hvis⟩ := ih { st with visible := true, focused := true }
      refine ⟨st', [Act.show, Act.setFocus] ++ tr, ?_, ?_⟩
      · simp [runToggles, toggle_window, hv, heq]
      · rw [hvis, parity_succ]
        simp [hv]

/-- C2 counterexample: when the window handle is unavailable, the
`toggle_window` invocation does not complete normally with the failure
logged and swallowed — it panics (the Rust `unwrap` propagates). -/
theorem toggle_window_unavailable_panics :
    toggle_window { window := none } = Outcome.panicked ∧
    ¬ ∃ w tr, toggle_window { window := none } = Outcome.ok w tr := by
  refine ⟨rfl, ?_⟩
  rintro ⟨w, tr, h⟩
  simp [toggle_window] at h

/-- C2 amended: for every visibility operation (toggle, show, hide, the
tray handlers, the close-request handler, and both hotkey callbacks), if
the underlying window handle query or action fails, the invocation panics
via `unwrap` rather than logging and swallowing the failure. -/
theorem window_ops_panic_when_unavailable (w : World) (h : w.window = none) :
    toggle_window w = Outcome.panicked ∧
    show_window w = Outcome.panicked ∧
    hide_window w = Outcome.panicked ∧
    handle_system_tray_event w SystemTrayEvent.leftClick = Outcome.panicked ∧
    handle_system_tray_event w (SystemTrayEvent.menuItemClick "show") = Outcome.panicked ∧
    handle_system_tray_event w (SystemTrayEvent.menuItemClick "hide") = Outcome.panicked ∧
    handle_system_tray_event w (SystemTrayEvent.menuItemClick "settings") = Outcome.panicked ∧
    on_window_event w WindowEventK.closeRequested = Outcome.panicked ∧
    hotkey_toggle_quote w = Outcome.panicked ∧
    hotkey_toggle_shift_a w = Outcome.panicked := by
  obtain ⟨win⟩ := w
  cases h
  decide

/-- C2 witness: the amended theorem applied to the concrete unavailable
world. -/
theorem window_ops_panic_when_unavailable_witness :
    toggle_window { window := none } = Outcome.panicked ∧
    show_window { window := none } = Outcome.panicked ∧
    hide_window { window := none } = Outcome.panicked ∧
    handle_system_tray_event { window := none } SystemTrayEvent.leftClick = Outcome.panicked ∧
    handle_system_tray_event { window := none } (SystemTrayEvent.menuItemClick "show") = Outcome.panicked ∧
    handle_system_tray_event { window := none } (SystemTrayEvent.menuItemClick "hide") = Outcome.panicked ∧
    handle_system_tray_event { window := none } (SystemTrayEvent.menuItemClick "settings") = Outcome.panicked ∧
    on_window_event { window := none } WindowEventK.closeRequested = Outcome.panicked ∧
    hotkey_toggle_quote { window := none } = Outcome.panicked ∧
    hotkey_toggle_shift_a { window := none } = Outcome.panicked :=
  window_ops_panic_when_unavailable { window := none } rfl

/-- C3: for every prior visibility state, a close-request on the main
window suppresses the default destroy transition (`prevent_close` is
issued, so the window is not destroyed), hides the window
(`visible = false`), and the process keeps running (no exit). -/
theorem close_request_hides_never_destroys (st : WindowState) :
    on_window_event { window := some st } WindowEventK.closeRequested =
      Outcome.ok { window := some { st with visible := false } }
        [Act.preventClose, Act.hide] ∧
    destroysWindow (on_window_event { window := some st } WindowEventK.closeRequested) = false ∧
    processExits (on_window_event { window := some st } WindowEventK.closeRequested) = false :=
  ⟨rfl, rfl, rfl⟩

/-- C4: for every prior visibility state, selecting the tray `settings`
item leaves the window visible and focused and emits exactly one
`show-settings` notification. -/
theorem settings_shows_focuses_emits_once (st : WindowState) :
    ∃ tr,
      handle_system_tray_event { window := some st }
          (SystemTrayEvent.menuItemClick "settings") =
        Outcome.ok { window := some { st with visible := true, focused := true } } tr ∧
      tr.count (Act.emit "show-settings") = 1 := by
  exact ⟨[Act.show, Act.setFocus, Act.emit "show-settings"], rfl, by decide⟩

/-- C5: the tray left-click handler, both global-hotkey callbacks, and the
`toggle_window` UI command are observationally equivalent: on every world
they produce the same outcome. -/
theorem toggle_triggers_equivalent (w : World) :
    handle_system_tray_event w SystemTrayEvent.leftClick = toggle_window w ∧
    hotkey_toggle_quote w = toggle_window w ∧
    hotkey_toggle_shift_a w = toggle_window w :=
  ⟨rfl, rfl, rfl⟩

/-- C6: `show_window` is idempotent — two consecutive calls reach exactly
the state one call reaches, and on an available window that state is
visible and focused. -/
theorem show_window_idempotent (w : World) (v f : Bool) :
    twiceState show_window w = stateAfter (show_window w) ∧
    stateAfter (show_window { window := some { visible := v, focused := f } }) =
      some { window := some { visible := true, focused := true } } := by
  constructor
  · rcases w with ⟨_ | ⟨vv, ff⟩⟩ <;> rfl
  · rfl

/-- C7: `hide_window` is idempotent — two consecutive calls reach exactly
the state one call reaches, and on an available window that state is
hidden. -/
theorem hide_window_idempotent (w : World) (v f : Bool) :
    twiceState hide_window w = stateAfter (hide_window w) ∧
    stateAfter (hide_window { window := some { visible := v, focused := f } }) =
      some { window := some { visible := false, focused := f } } := by
  constructor
  · rcases w with ⟨_ | ⟨vv, ff⟩⟩ <;> rfl
  · rfl

/-- C8: `file_exists` never fails (it is a total Boolean function of the
filesystem oracle): it returns `false` when the path does not exist and
when the path is syntactically invalid, and `true` for a path that exists
at call time. -/
theorem file_exists_never_fails (fs : Fs) (p : String) :
    (fs.query p = MetaResult.notFound → file_exists fs p = false) ∧
    (fs.query p = MetaResult.invalidPath → file_exists fs p = false) ∧
    (fs.query p = MetaResult.found → file_exists fs p = true) := by
  refine ⟨fun h => ?_, fun h => ?_, fun h => ?_⟩ <;> simp [file_exists, h]

/-- C8 witness: the theorem applied on a concrete filesystem at a missing
path, an invalid path, and a present path. -/
theorem file_exists_never_fails_witness :
    file_exists sampleFs "/gone" = false ∧
    file_exists sampleFs "" = false ∧
    file_exists sampleFs "/present" = true :=
  ⟨(file_exists_never_fails sampleFs "/gone").1 (by decide),
   (file_exists_never_fails sampleFs "").2.1 (by decide),
   (file_exists_never_fails sampleFs "/present").2.2 (by decide)⟩

/-- C9: a tray menu-item selection whose id is none of `quit`, `show`,
`hide`, `settings` is ignored — the handler completes normally, issues no
action, leaves the world unchanged, and does not exit the process. -/
theorem unknown_menu_id_ignored (w : World) (id : String)
    (h1 : id ≠ "quit") (h2 : id ≠ "show") (h3 : id ≠ "hide") (h4 : id ≠ "settings") :
    handle_system_tray_event w (SystemTrayEvent.menuItemClick id) = Outcome.ok w [] := by
  simp [handle_system_tray_event, h1, h2, h3, h4]

/-- C9 witness: the theorem applied to the unrecognized id `reload` on a
concrete world. -/
theorem unknown_menu_id_ignored_witness :
    handle_system_tray_event { window := some { visible := true, focused := true } }
        (SystemTrayEvent.menuItemClick "reload") =
      Outcome.ok { window := some { visible := true, focused := true } } [] :=
  unknown_menu_id_ignored { window := some { visible := true, focused := true } } "reload"
    (by decide) (by decide) (by decide) (by decide)

/-- C10: no hide path ever requests input focus — the `hide_window`
command and the tray `hide` item issue only the hide action whenever they
complete normally, and on a visible window every toggle trigger takes the
hide branch, issuing only the hide action. -/
theorem hide_paths_never_focus (w : World) (st : WindowState) (hv : st.visible = true) :
    (∀ w' tr, hide_window w = Outcome.ok w' tr → Act.setFocus ∉ tr ∧ tr = [Act.hide]) ∧
    (∀ w' tr, handle_system_tray_event w (SystemTrayEvent.menuItemClick "hide") =
        Outcome.ok w' tr → Act.setFocus ∉ tr ∧ tr = [Act.hide]) ∧
    toggle_window { window := some st } =
      Outcome.ok { window := some { st with visible := false } } [Act.hide] ∧
    handle_system_tray_event { window := some st } SystemTrayEvent.leftClick =
      Outcome.ok { window := some { st with visible := false } } [Act.hide] ∧
    hotkey_toggle_quote { window := some st } =
      Outcome.ok { window := some { st with visible := false } } [Act.hide] ∧
    hotkey_toggle_shift_a { window := some st } =
      Outcome.ok { window := some { st with visible := false } } [Act.hide] := by
  refine ⟨?_, ?_, ?_, ?_, ?_, ?_⟩
  · rcases w with ⟨_ | ⟨vv, ff⟩⟩
    · intro w' tr h
      simp [hide_window] at h
    · intro w' tr h
      simp [hide_window] at h
      obtain ⟨-, rfl⟩ := h
      exact ⟨by decide, rfl⟩
  · rcases w with ⟨_ | ⟨vv, ff⟩⟩
    · intro w' tr h
      simp [handle_system_tray_event] at h
    · intro w' tr h
      simp [handle_system_tray_event] at h
      obtain ⟨-, rfl⟩ := h
      exact ⟨by decide, rfl⟩
  · simp [toggle_window, hv]
  · simp [handle_system_tray_event, hv]
  · simp [hotkey_toggle_quote, hv]
  · simp [hotkey_toggle_shift_a, hv]

/-- C10 witness: the theorem applied on a visible focused window: the
toggle command's hide branch issues only the hide action. -/
theorem hide_paths_never_focus_witness :
    toggle_window { window := some { visible := true, focused := true } } =
      Outcome.ok { window := some { visible := false, focused := true } } [Act.hide] :=
  (hide_paths_never_focus { window := some { visible := true, focused := true } }
    { visible := true, focused := true } rfl).2.2.1
